import Mathlib

/-!
Verification of the budget app (src/bud.py): a shallow embedding of the
sqlite-backed store, the month ledger logic (ensure_month) and the HTTP JSON
handlers, together with theorems settling the specification claims.

Monetary amounts (REAL in sqlite, float in Python) are modelled as rationals:
the code only ever stores, copies and compares these values, so no property
here depends on floating point rounding.
-/

namespace Bud

/- ---------- string and char constants (kept as named definitions) ---------- -/

def emptyStr : String := ""
def dashStr : String := "-"
def twelveStr : String := "12"
def zeroPad : String := "0"
def dashChar : Char := '-'
def plusChar : Char := '+'
def dotChar : Char := '.'

def statusKey : String := "status"
def okStr : String := "ok"
def errorKey : String := "error"
def monthKey : String := "month"
def idKey : String := "id"
def ymKey : String := "ym"
def nameKey : String := "name"
def amountKey : String := "amount"
def dateKey : String := "date"
def quarterlyKey : String := "quarterly"
def sourceKey : String := "source"
def billKey : String := "bill"
def moneyInKey : String := "money_in"
def closingKey : String := "closing_balance"
def deletedKey : String := "deleted"
def deletedIdKey : String := "deleted_id"
def notFoundStr : String := "not_found"

def msgMissingYm : String := "Missing ym in body"
def msgMissingYmQuery : String := "Missing ym query param"
def msgBillFields : String := "Body must include ym, name, amount"
def msgBillIdFields : String := "Body must include id, name, amount"
def msgMiFields : String := "Body must include ym, source, amount"
def msgMiIdFields : String := "Body must include id, source, amount"
def msgBalanceFields : String := "Body must include ym and closing_balance"
def msgAmountNum : String := "amount must be a number"
def msgClosingNum : String := "closing_balance must be a number"
def msgNotFound : String := "Not found"

def addMonthRoute : String := "/add_month"
def deleteMonthRoute : String := "/delete_month"
def addBillRoute : String := "/add_bill"
def updateBillRoute : String := "/update_bill"
def addMoneyInRoute : String := "/add_money_in"
def updateMoneyInRoute : String := "/update_money_in"
def updateBalanceRoute : String := "/update_balance"

/- ---------- JSON values (the output of json.loads) ---------- -/

/-- JSON values as delivered by json.loads to the handlers. -/
inductive JVal where
  | null : JVal
  | bool : Bool → JVal
  | num : Rat → JVal
  | str : String → JVal
  | arr : List JVal → JVal
  | obj : List (String × JVal) → JVal

/-- Python truthiness of a JSON value (None, False, 0, empty string, empty
list and empty dict are falsy). -/
def truthy : JVal → Bool
  | .null => false
  | .bool b => b
  | .num q => q != 0
  | .str s => s.length != 0
  | .arr l => l.length != 0
  | .obj l => l.length != 0

def isNull : JVal → Bool
  | .null => true
  | _ => false

/-- Whether sqlite3 can bind the value as a statement parameter: None, bools,
numbers and strings bind; lists and dicts raise an uncaught error. -/
def bindable : JVal → Bool
  | .arr _ => false
  | .obj _ => false
  | _ => true

/-- The Python exceptions that can surface in the handlers.  operationalError
stands for sqlite3.OperationalError (for example a reference to a column that
the table does not have), bindError for the sqlite3 error raised when binding
an unsupported parameter type. -/
inductive PyExc where
  | valueError : PyExc
  | typeError : PyExc
  | attributeError : PyExc
  | operationalError : PyExc
  | bindError : PyExc

def msgValueError : String := "ValueError"
def msgTypeError : String := "TypeError"
def msgAttributeError : String := "AttributeError"
def msgOperationalError : String := "no such column"
def msgBindError : String := "Error binding parameter"

/-- Stand-in for str(e) in the 500 responses; the exact wording of these
messages is not part of any claim. -/
def excMsg : PyExc → String
  | .valueError => msgValueError
  | .typeError => msgTypeError
  | .attributeError => msgAttributeError
  | .operationalError => msgOperationalError
  | .bindError => msgBindError

/- ---------- request bodies (Python dicts after json.loads) ---------- -/

/-- A JSON object body, as a key-value association list. -/
abbrev Body := List (String × JVal)

/-- data.get(k): None when the key is absent. -/
def bget (d : Body) (k : String) : JVal :=
  match d.find? (fun p => p.fst == k) with
  | some p => p.snd
  | none => JVal.null

/-- data.get(k, default). -/
def bgetD (d : Body) (k : String) (v : JVal) : JVal :=
  match d.find? (fun p => p.fst == k) with
  | some p => p.snd
  | none => v

/- ---------- numeric and year-month parsing ---------- -/

/-- Decimal value of a digit list. -/
def digitsVal (l : List Char) : Nat :=
  l.foldl (fun a c => a * 10 + (c.toNat - 48)) 0

/-- Split a character list on a separator character, like the Python
str.split with a single-character separator. -/
def splitCharAux (sep : Char) : List Char → List Char → List (List Char)
  | [], acc => [acc.reverse]
  | c :: cs, acc =>
    if c == sep then acc.reverse :: splitCharAux sep cs []
    else splitCharAux sep cs (c :: acc)

/-- int(s) on a split part (parts contain no sign since the split removed the
separator): nonempty digit strings only.  Pythons tolerance for surrounding
whitespace and underscores is not modelled; no claim depends on it. -/
def parseDigits (l : List Char) : Option Nat :=
  if l.length != 0 && l.all Char.isDigit then some (digitsVal l) else none

/-- year, month = map(int, ym.split(dash)) (src/bud.py line 65): exactly two
dash-separated integer parts, otherwise a ValueError. -/
def parseYM (s : String) : Option (Nat × Nat) :=
  match splitCharAux dashChar s.toList [] with
  | [a, b] =>
    match parseDigits a, parseDigits b with
    | some y, some m => some (y, m)
    | _, _ => none
  | _ => none

/-- float(s) on a string: an optional sign followed by decimal digits with an
optional fractional part.  Exponent, inf and nan forms are not modelled; no
claim depends on them. -/
def pyFloatOfStr (s : String) : Option Rat :=
  let cs := s.toList
  let signAndRest : Bool × List Char :=
    match cs with
    | c :: rest =>
      if c == dashChar then (true, rest)
      else if c == plusChar then (false, rest)
      else (false, cs)
    | [] => (false, cs)
  let neg := signAndRest.1
  match splitCharAux dotChar signAndRest.2 [] with
  | [a] =>
    if a.length != 0 && a.all Char.isDigit then
      let v : Rat := (digitsVal a : Rat)
      some (if neg then -v else v)
    else none
  | [a, b] =>
    if (a.length + b.length != 0) && a.all Char.isDigit && b.all Char.isDigit then
      let v : Rat := (digitsVal a : Rat) + (digitsVal b : Rat) / ((10 : Rat) ^ b.length)
      some (if neg then -v else v)
    else none
  | _ => none

/-- float(v) on a JSON value: numbers pass through, booleans coerce to 1 and
0, numeric strings parse (else ValueError), and lists, dicts and None raise a
TypeError, which the handlers do not catch locally. -/
def pyFloat : JVal → Except PyExc Rat
  | .num q => .ok q
  | .bool b => .ok (if b then 1 else 0)
  | .str s =>
    match pyFloatOfStr s with
    | some q => .ok q
    | none => .error .valueError
  | .null => .error .typeError
  | .arr _ => .error .typeError
  | .obj _ => .error .typeError

/- ---------- the persistent store ---------- -/

/-- A row of the months table as ensure_month reads and writes it. -/
structure Month where
  id : Nat
  ym : String
  opening_balance : Rat
  closing_balance : Rat
deriving DecidableEq

/-- A row of the bills table.  name and date keep the JSON value the request
supplied; quarterly stores the truthiness bit (1 if quarterly else 0). -/
structure Bill where
  id : Nat
  month_id : Nat
  name : JVal
  amount : Rat
  date : JVal
  quarterly : Bool

/-- A row of the money_ins table. -/
structure MoneyIn where
  id : Nat
  month_id : Nat
  source : JVal
  amount : Rat
  date : JVal

/-- The sqlite database.  monthsHasBalanceCols records whether the months
table carries the opening_balance and closing_balance columns: the CREATE
TABLE in init_db (src/bud.py lines 26-31) does NOT create them, although
ensure_month and update_balance reference them.  The next*Id fields model the
AUTOINCREMENT counters (monotone, never reused). -/
structure DB where
  monthsHasBalanceCols : Bool
  months : List Month
  bills : List Bill
  money_ins : List MoneyIn
  nextMonthId : Nat
  nextBillId : Nat
  nextMiId : Nat

/-- The store produced by init_db (src/bud.py lines 23-54) on an empty file:
all three tables empty, and the months table created with only the id and ym
columns. -/
def initDB : DB :=
  { monthsHasBalanceCols := false, months := [], bills := [], money_ins := [],
    nextMonthId := 1, nextBillId := 1, nextMiId := 1 }

/- ---------- ensure_month (src/bud.py lines 56-79) ---------- -/

/-- Python format spec {:02d}: pad with a leading zero to width two. -/
def pad2 (n : Int) : String :=
  if 0 ≤ n ∧ n ≤ 9 then zeroPad ++ toString n else toString n

/-- The predecessor key string the code builds (src/bud.py lines 66-69):
f-string year-1 dash 12 when month is 1, else year dash month-1 padded. -/
def prevYmOf (year month : Nat) : String :=
  if month == 1 then toString ((year : Int) - 1) ++ dashStr ++ twelveStr
  else toString (year : Int) ++ dashStr ++ pad2 ((month : Int) - 1)

/-- ensure_month (src/bud.py lines 56-79).  The first SELECT names the
opening_balance and closing_balance columns, so it raises OperationalError
whenever the months table lacks them (the init_db schema).  Otherwise: return
the existing row id; or parse the key, look up the closing balance of the
predecessor key (the `or 0` guard maps a zero or missing value to zero),
insert a row with opening = closing = that value, commit, and return the
fresh rowid. -/
def ensure_month (db : DB) (ym : String) : Except PyExc (Nat × DB) :=
  if db.monthsHasBalanceCols = true then
    match db.months.find? (fun r => r.ym == ym) with
    | some row => .ok (row.id, db)
    | none =>
      match parseYM ym with
      | none => .error .valueError
      | some (year, month) =>
        let prev_ym := prevYmOf year month
        let prev_balance : Rat :=
          match db.months.find? (fun r => r.ym == prev_ym) with
          | some r => if r.closing_balance == 0 then 0 else r.closing_balance
          | none => 0
        let m : Month :=
          { id := db.nextMonthId, ym := ym,
            opening_balance := prev_balance, closing_balance := prev_balance }
        .ok (db.nextMonthId,
          { db with months := db.months ++ [m], nextMonthId := db.nextMonthId + 1 })
  else .error .operationalError

/- ---------- responses ---------- -/

/-- An HTTP JSON response: status code and body. -/
abbrev Resp := Nat × JVal

def errResp (status : Nat) (msg : String) : Resp :=
  (status, JVal.obj [(errorKey, JVal.str msg)])

/-- The route-level except branch: any uncaught exception becomes a 500 with
the exception text (src/bud.py lines 327-328, 166-167, 356-357). -/
def exc500 (e : PyExc) : Resp := errResp 500 (excMsg e)

/- ---------- GET handlers (src/bud.py lines 104-167) ---------- -/

/-- Insertion sort used to model the ORDER BY clauses; no claim depends on
the ordering itself. -/
def insertSorted {a : Type} (le : a → a → Bool) (x : a) : List a → List a
  | [] => [x]
  | y :: ys => if le x y then x :: y :: ys else y :: insertSorted le x ys

def sortByLe {a : Type} (le : a → a → Bool) (l : List a) : List a :=
  l.foldr (insertSorted le) []

def strLe (s t : String) : Bool := s == t || decide (s < t)

/-- GET /months: id and ym of every month, ordered by ym. -/
def getMonths (db : DB) : Resp × DB :=
  let rows := sortByLe (fun x y => strLe x.ym y.ym) db.months
  ((200, JVal.arr (rows.map (fun r =>
    JVal.obj [(idKey, JVal.num (r.id : Rat)), (ymKey, JVal.str r.ym)]))), db)

/-- GET /bills?ym=...: bills joined to the month with that key, ordered by
id.  A missing or empty ym query value is a 400. -/
def getBills (db : DB) (ym : Option String) : Resp × DB :=
  match ym with
  | none => (errResp 400 msgMissingYmQuery, db)
  | some y =>
    if y.length == 0 then (errResp 400 msgMissingYmQuery, db)
    else
      let rows := sortByLe (fun x z => decide (x.id ≤ z.id))
        (db.bills.filter (fun b =>
          db.months.any (fun m => m.id == b.month_id && m.ym == y)))
      ((200, JVal.arr (rows.map (fun b =>
        JVal.obj [(idKey, JVal.num (b.id : Rat)), (nameKey, b.name),
          (amountKey, JVal.num b.amount), (dateKey, b.date),
          (quarterlyKey, JVal.bool b.quarterly)]))), db)

/-- GET /money_ins?ym=... -/
def getMoneyIns (db : DB) (ym : Option String) : Resp × DB :=
  match ym with
  | none => (errResp 400 msgMissingYmQuery, db)
  | some y =>
    if y.length == 0 then (errResp 400 msgMissingYmQuery, db)
    else
      let rows := sortByLe (fun x z => decide (x.id ≤ z.id))
        (db.money_ins.filter (fun mi =>
          db.months.any (fun m => m.id == mi.month_id && m.ym == y)))
      ((200, JVal.arr (rows.map (fun mi =>
        JVal.obj [(idKey, JVal.num (mi.id : Rat)), (sourceKey, mi.source),
          (amountKey, JVal.num mi.amount), (dateKey, mi.date)]))), db)

/- ---------- POST handlers (src/bud.py lines 169-328) ---------- -/

/-- POST /add_month (src/bud.py lines 175-184): require a truthy ym, run
ensure_month, re-select the row and answer 201 with its id and ym.  A
non-string ym reaches ym.split and raises AttributeError, hence 500. -/
def postAddMonth (db : DB) (data : Body) : Resp × DB :=
  let ym := bget data ymKey
  if truthy ym = false then (errResp 400 msgMissingYm, db)
  else
    match ym with
    | .str s =>
      match ensure_month db s with
      | .error e => (exc500 e, db)
      | .ok (_, db1) =>
        match db1.months.find? (fun r => r.ym == s) with
        | some row =>
          ((201, JVal.obj [(statusKey, JVal.str okStr),
            (monthKey, JVal.obj [(idKey, JVal.num (row.id : Rat)),
              (ymKey, JVal.str row.ym)])]), db1)
        | none => (exc500 .typeError, db1)
    | _ => (exc500 .attributeError, db)

/-- The state after DELETE FROM months WHERE id = mid with the foreign-key
cascade enabled (PRAGMA foreign_keys = ON, src/bud.py line 20): the month row
and every bill and money_in referencing it are removed. -/
def cascadeDelete (db : DB) (mid : Nat) : DB :=
  { db with
    months := db.months.filter (fun m => !(m.id == mid)),
    bills := db.bills.filter (fun b => !(b.month_id == mid)),
    money_ins := db.money_ins.filter (fun mi => !(mi.month_id == mid)) }

/-- POST /delete_month (src/bud.py lines 186-202): require a truthy ym, look
the month up by key (a non-string but bindable ym simply matches nothing),
404 when absent, else cascade-delete it. -/
def postDeleteMonth (db : DB) (data : Body) : Resp × DB :=
  let ym := bget data ymKey
  if truthy ym = false then (errResp 400 msgMissingYm, db)
  else if bindable ym = false then (exc500 .bindError, db)
  else
    let hit : Option Month :=
      match ym with
      | .str s => db.months.find? (fun r => r.ym == s)
      | _ => none
    match hit with
    | none => ((404, JVal.obj [(statusKey, JVal.str notFoundStr), (ymKey, ym)]), db)
    | some row =>
      ((200, JVal.obj [(statusKey, JVal.str okStr), (deletedKey, ym)]),
        cascadeDelete db row.id)

/-- POST /add_bill (src/bud.py lines 204-228): require truthy ym and name and
a non-None amount; convert amount with float catching only ValueError; then
ensure the month (committed inside ensure_month) and insert the bill. -/
def postAddBill (db : DB) (data : Body) : Resp × DB :=
  let ym := bget data ymKey
  let name := bget data nameKey
  let amount := bget data amountKey
  let date := bgetD data dateKey (JVal.str emptyStr)
  let quarterly := bgetD data quarterlyKey (JVal.bool false)
  if !(truthy ym && truthy name && !(isNull amount)) then
    (errResp 400 msgBillFields, db)
  else
    match pyFloat amount with
    | .error .valueError => (errResp 400 msgAmountNum, db)
    | .error e => (exc500 e, db)
    | .ok a =>
      match ym with
      | .str s =>
        match ensure_month db s with
        | .error e => (exc500 e, db)
        | .ok (month_id, db1) =>
          if bindable name && bindable date then
            let row : Bill :=
              { id := db1.nextBillId, month_id := month_id, name := name,
                amount := a, date := date, quarterly := truthy quarterly }
            let db2 :=
              { db1 with bills := db1.bills ++ [row], nextBillId := db1.nextBillId + 1 }
            ((201, JVal.obj [(statusKey, JVal.str okStr),
              (billKey, JVal.obj [(idKey, JVal.num (db1.nextBillId : Rat)),
                (nameKey, name), (amountKey, JVal.num a), (dateKey, date),
                (quarterlyKey, quarterly)])]), db2)
          else (exc500 .bindError, db1)
      | _ => (exc500 .attributeError, db)

/-- Whether a bound parameter matches an INTEGER id column.  The sqlite
text-affinity conversion of numeric strings is not modelled; no claim
depends on it. -/
def idMatches (v : JVal) (n : Nat) : Bool :=
  match v with
  | .num q => q == (n : Rat)
  | .bool b => (if b then (1 : Rat) else 0) == (n : Rat)
  | _ => false

/-- POST /update_bill (src/bud.py lines 229-251): overwrite by id; a missing
id is a silent no-op still answered 200. -/
def postUpdateBill (db : DB) (data : Body) : Resp × DB :=
  let bill_id := bget data idKey
  let name := bget data nameKey
  let amount := bget data amountKey
  let date := bgetD data dateKey (JVal.str emptyStr)
  let quarterly := bgetD data quarterlyKey (JVal.bool false)
  if !(truthy bill_id && truthy name && !(isNull amount)) then
    (errResp 400 msgBillIdFields, db)
  else
    match pyFloat amount with
    | .error .valueError => (errResp 400 msgAmountNum, db)
    | .error e => (exc500 e, db)
    | .ok a =>
      if bindable bill_id && bindable name && bindable date then
        ((200, JVal.obj [(statusKey, JVal.str okStr),
          (billKey, JVal.obj [(idKey, bill_id), (nameKey, name),
            (amountKey, JVal.num a), (dateKey, date), (quarterlyKey, quarterly)])]),
          { db with bills := db.bills.map (fun b =>
            if idMatches bill_id b.id then
              { b with name := name, amount := a, date := date, quarterly := truthy quarterly }
            else b) })
      else (exc500 .bindError, db)

/-- POST /add_money_in (src/bud.py lines 253-276). -/
def postAddMoneyIn (db : DB) (data : Body) : Resp × DB :=
  let ym := bget data ymKey
  let source := bget data sourceKey
  let amount := bget data amountKey
  let date := bgetD data dateKey (JVal.str emptyStr)
  if !(truthy ym && truthy source && !(isNull amount)) then
    (errResp 400 msgMiFields, db)
  else
    match pyFloat amount with
    | .error .valueError => (errResp 400 msgAmountNum, db)
    | .error e => (exc500 e, db)
    | .ok a =>
      match ym with
      | .str s =>
        match ensure_month db s with
        | .error e => (exc500 e, db)
        | .ok (month_id, db1) =>
          if bindable source && bindable date then
            let row : MoneyIn :=
              { id := db1.nextMiId, month_id := month_id, source := source,
                amount := a, date := date }
            let db2 :=
              { db1 with money_ins := db1.money_ins ++ [row], nextMiId := db1.nextMiId + 1 }
            ((201, JVal.obj [(statusKey, JVal.str okStr),
              (moneyInKey, JVal.obj [(idKey, JVal.num (db1.nextMiId : Rat)),
                (sourceKey, source), (amountKey, JVal.num a), (dateKey, date)])]),
              db2)
          else (exc500 .bindError, db1)
      | _ => (exc500 .attributeError, db)

/-- POST /update_money_in (src/bud.py lines 278-299). -/
def postUpdateMoneyIn (db : DB) (data : Body) : Resp × DB :=
  let mi_id := bget data idKey
  let source := bget data sourceKey
  let amount := bget data amountKey
  let date := bgetD data dateKey (JVal.str emptyStr)
  if !(truthy mi_id && truthy source && !(isNull amount)) then
    (errResp 400 msgMiIdFields, db)
  else
    match pyFloat amount with
    | .error .valueError => (errResp 400 msgAmountNum, db)
    | .error e => (exc500 e, db)
    | .ok a =>
      if bindable mi_id && bindable source && bindable date then
        ((200, JVal.obj [(statusKey, JVal.str okStr),
          (moneyInKey, JVal.obj [(idKey, mi_id), (sourceKey, source),
            (amountKey, JVal.num a), (dateKey, date)])]),
          { db with money_ins := db.money_ins.map (fun mi =>
            if idMatches mi_id mi.id then
              { mi with source := source, amount := a, date := date }
            else mi) })
      else (exc500 .bindError, db)

/-- Whether the bound ym parameter matches a months.ym TEXT value. -/
def ymMatches (v : JVal) (col : String) : Bool :=
  match v with
  | .str t => col == t
  | _ => false

/-- POST /update_balance (src/bud.py lines 302-322): require a truthy ym and
a non-None closing_balance, convert with float catching only ValueError, then
UPDATE months SET closing_balance WHERE ym and answer 200 regardless of how
many rows matched.  The UPDATE names the closing_balance column, so it raises
OperationalError on the init_db schema. -/
def postUpdateBalance (db : DB) (data : Body) : Resp × DB :=
  let ym := bget data ymKey
  let cb := bget data closingKey
  if !(truthy ym) || isNull cb then (errResp 400 msgBalanceFields, db)
  else
    match pyFloat cb with
    | .error .valueError => (errResp 400 msgClosingNum, db)
    | .error e => (exc500 e, db)
    | .ok v =>
      if db.monthsHasBalanceCols = true then
        if bindable ym then
          ((200, JVal.obj [(statusKey, JVal.str okStr), (ymKey, ym),
            (closingKey, JVal.num v)]),
            { db with months := db.months.map (fun m =>
              if ymMatches ym m.ym then { m with closing_balance := v } else m) })
        else (exc500 .bindError, db)
      else (exc500 .operationalError, db)

/- ---------- DELETE handlers (src/bud.py lines 330-357) ---------- -/

/-- DELETE /delete_bill/{id}: delete-if-exists, always 200 with deleted_id. -/
def deleteBillOp (db : DB) (i : Int) : Resp × DB :=
  ((200, JVal.obj [(statusKey, JVal.str okStr), (deletedIdKey, JVal.num (i : Rat))]),
    { db with bills := db.bills.filter (fun b => !((b.id : Int) == i)) })

/-- DELETE /delete_money_in/{id}. -/
def deleteMoneyInOp (db : DB) (i : Int) : Resp × DB :=
  ((200, JVal.obj [(statusKey, JVal.str okStr), (deletedIdKey, JVal.num (i : Rat))]),
    { db with money_ins := db.money_ins.filter (fun mi => !((mi.id : Int) == i)) })

/- ---------- request body reading and POST routing ---------- -/

/-- _read_json (src/bud.py lines 96-102): an unreadable or invalid body
yields the empty JSON object. -/
def readJson (raw : Option Body) : Body :=
  match raw with
  | some b => b
  | none => []

/-- do_POST routing (src/bud.py lines 169-325). -/
def postDispatch (route : String) (raw : Option Body) (db : DB) : Resp × DB :=
  let data := readJson raw
  if route == addMonthRoute then postAddMonth db data
  else if route == deleteMonthRoute then postDeleteMonth db data
  else if route == addBillRoute then postAddBill db data
  else if route == updateBillRoute then postUpdateBill db data
  else if route == addMoneyInRoute then postAddMoneyIn db data
  else if route == updateMoneyInRoute then postUpdateMoneyIn db data
  else if route == updateBalanceRoute then postUpdateBalance db data
  else (errResp 404 msgNotFound, db)

def knownPostRoutes : List String :=
  [addMonthRoute, deleteMonthRoute, addBillRoute, updateBillRoute,
   addMoneyInRoute, updateMoneyInRoute, updateBalanceRoute]

/- ---------- the whole API surface as one operation type ---------- -/

/-- Every state-bearing operation of the API. -/
inductive Op where
  | listMonths : Op
  | listBills : Option String → Op
  | listMoneyIns : Option String → Op
  | addMonth : Body → Op
  | deleteMonth : Body → Op
  | addBill : Body → Op
  | updateBill : Body → Op
  | addMoneyIn : Body → Op
  | updateMoneyIn : Body → Op
  | updateBalance : Body → Op
  | deleteBill : Int → Op
  | deleteMoneyIn : Int → Op

def applyOp (op : Op) (db : DB) : Resp × DB :=
  match op with
  | .listMonths => getMonths db
  | .listBills ym => getBills db ym
  | .listMoneyIns ym => getMoneyIns db ym
  | .addMonth b => postAddMonth db b
  | .deleteMonth b => postDeleteMonth db b
  | .addBill b => postAddBill db b
  | .updateBill b => postUpdateBill db b
  | .addMoneyIn b => postAddMoneyIn db b
  | .updateMoneyIn b => postUpdateMoneyIn db b
  | .updateBalance b => postUpdateBalance db b
  | .deleteBill i => deleteBillOp db i
  | .deleteMoneyIn i => deleteMoneyInOp db i

/- ---------- spec-side definitions (used to compare code with spec) ---------- -/

/-- Modelled from the spec wording: the immediately preceding year-month key,
December of the prior year when the month is 1, otherwise the same year with
month minus 1 zero-padded to two digits. -/
def specPrevYm (year month : Nat) : String :=
  if month = 1 then toString ((year : Int) - 1) ++ dashStr ++ twelveStr
  else toString (year : Int) ++ dashStr ++ pad2 ((month : Int) - 1)

/-- The spec-side carried-forward value: the closing balance of the preceding
month, zero when that month is absent. -/
def specPrevClosing (db : DB) (year month : Nat) : Rat :=
  match db.months.find? (fun r => r.ym == specPrevYm year month) with
  | some r => r.closing_balance
  | none => 0

/-- The month row ensure_month inserts: fresh id, the requested key, opening
and closing balance both the carried value. -/
def newMonthRow (mid : Nat) (ym : String) (v : Rat) : Month :=
  { id := mid, ym := ym, opening_balance := v, closing_balance := v }

/- ---------- concrete stores and requests used by witnesses ---------- -/

/-- An empty store whose months table does carry the balance columns: the
schema that ensure_month and update_balance require (see C1). -/
def goodDB : DB :=
  { monthsHasBalanceCols := true, months := [], bills := [], money_ins := [],
    nextMonthId := 1, nextBillId := 1, nextMiId := 1 }

def ymJan : String := "2024-01"
def ymFeb : String := "2024-02"
def ymJanShort : String := "2024-1"
def ym2501 : String := "2025-01"
def rentStr : String := "Rent"
def abcStr : String := "abc"

def c1Body1 : Body := [(ymKey, JVal.str ymJan)]
def c1Body2 : Body :=
  [(ymKey, JVal.str ymJan), (nameKey, JVal.str rentStr), (amountKey, JVal.num 1200)]
def c1Body3 : Body := [(ymKey, JVal.str ymJan), (closingKey, JVal.num (-1200))]
def c1Body4 : Body := [(ymKey, JVal.str ymFeb)]

def c1s1 : DB := (postAddMonth goodDB c1Body1).2
def c1s2 : DB := (postAddBill c1s1 c1Body2).2
def c1s3 : DB := (postUpdateBalance c1s2 c1Body3).2
def c1s4 : DB := (postAddMonth c1s3 c1Body4).2

def c3db1 : DB := (postAddMonth goodDB [(ymKey, JVal.str ymJanShort)]).2
def c3db2 : DB :=
  (postUpdateBalance c3db1 [(ymKey, JVal.str ymJanShort), (closingKey, JVal.num 7)]).2
def c3db3 : DB := (postAddMonth c3db2 [(ymKey, JVal.str ymFeb)]).2

def c3wM1 : Month := { id := 1, ym := ymJan, opening_balance := 0, closing_balance := 7 }
def c3wDB : DB :=
  { monthsHasBalanceCols := true, months := [c3wM1], bills := [], money_ins := [],
    nextMonthId := 2, nextBillId := 1, nextMiId := 1 }

def c7body : Body :=
  [(ymKey, JVal.str ymJan), (nameKey, JVal.str rentStr), (amountKey, JVal.arr [])]
def c7wBody : Body :=
  [(ymKey, JVal.str ymJan), (nameKey, JVal.str rentStr), (amountKey, JVal.str abcStr)]

def c8body : Body := [(ymKey, JVal.str ymJan), (closingKey, JVal.num 5)]

def c4db1 : DB := (postAddMonth goodDB c1Body1).2
def c4resp : Resp := (postAddMonth goodDB c1Body1).1

def c5m1 : Month := { id := 1, ym := ymJan, opening_balance := 0, closing_balance := 3 }
def c5m2 : Month := { id := 2, ym := ymFeb, opening_balance := 3, closing_balance := 3 }
def c5b1 : Bill :=
  { id := 1, month_id := 1, name := JVal.str rentStr, amount := 100,
    date := JVal.str emptyStr, quarterly := false }
def c5b2 : Bill :=
  { id := 2, month_id := 2, name := JVal.str rentStr, amount := 50,
    date := JVal.str emptyStr, quarterly := true }
def c5mi1 : MoneyIn :=
  { id := 1, month_id := 1, source := JVal.str rentStr, amount := 900,
    date := JVal.str emptyStr }
def c5db : DB :=
  { monthsHasBalanceCols := true, months := [c5m1, c5m2], bills := [c5b1, c5b2],
    money_ins := [c5mi1], nextMonthId := 3, nextBillId := 3, nextMiId := 2 }

def c6op : Op := Op.updateBalance [(ymKey, JVal.str ymJan), (closingKey, JVal.num 5)]

def c9db : DB :=
  { monthsHasBalanceCols := true, months := [], money_ins := [],
    bills := [{ id := 1, month_id := 1, name := JVal.str rentStr, amount := 10,
                date := JVal.str emptyStr, quarterly := false }],
    nextMonthId := 2, nextBillId := 2, nextMiId := 1 }

/- ---------- helper lemmas ---------- -/

/-- The `or 0` guard on a numeric closing balance is the identity. -/
theorem orZeroEq (q : Rat) : (if q == 0 then (0 : Rat) else q) = q := by
  by_cases h : q = 0 <;> simp [h]

/-- ensure_month on a key that already has a row returns that rows id and
leaves the store untouched. -/
theorem ensure_month_found (db : DB) (s : String) (row : Month)
    (hc : db.monthsHasBalanceCols = true)
    (hf : db.months.find? (fun r => r.ym == s) = some row) :
    ensure_month db s = .ok (row.id, db) := by
  simp [ensure_month, hc, hf]

/-- A successful ensure_month always ends in a store whose months table has
the balance columns. -/
theorem ensure_month_ok_cols (db : DB) (s : String) (p : Nat × DB)
    (h : ensure_month db s = .ok p) : p.2.monthsHasBalanceCols = true := by
  unfold ensure_month at h
  by_cases hc : db.monthsHasBalanceCols = true
  · rw [if_pos hc] at h
    cases hfind : db.months.find? (fun r => r.ym == s) with
    | some row =>
      rw [hfind] at h
      cases h
      exact hc
    | none =>
      rw [hfind] at h
      cases hp : parseYM s with
      | none => rw [hp] at h; cases h
      | some ymn =>
        rw [hp] at h
        cases h
        exact hc
  · rw [if_neg hc] at h
    cases h

/-- A successful ensure_month either leaves the store unchanged or appends a
single month row carrying the fresh AUTOINCREMENT id. -/
theorem ensure_month_months (db : DB) (s : String) (p : Nat × DB)
    (h : ensure_month db s = .ok p) :
    p.2 = db ∨
    (∃ mnew : Month, mnew.id = db.nextMonthId ∧
      p.2.months = db.months ++ [mnew] ∧
      p.2.bills = db.bills ∧ p.2.money_ins = db.money_ins) := by
  unfold ensure_month at h
  by_cases hc : db.monthsHasBalanceCols = true
  · rw [if_pos hc] at h
    cases hfind : db.months.find? (fun r => r.ym == s) with
    | some row =>
      rw [hfind] at h
      cases h
      exact Or.inl rfl
    | none =>
      rw [hfind] at h
      cases hp : parseYM s with
      | none => rw [hp] at h; cases h
      | some ymn =>
        rw [hp] at h
        cases ymn with
        | mk y m =>
          cases h
          refine Or.inr ⟨_, rfl, rfl, rfl, rfl⟩
  · rw [if_neg hc] at h
    cases h

/- ---------- claim theorems ---------- -/

/-- C1: the claimed four-step scenario (add_month 2024-01, add_bill Rent 1200,
update_balance -1200, add_month 2024-02) does NOT succeed on the store that
init_db builds: init_db creates months without the balance columns, so every
step answers 500 and leaves the store empty.  On a store whose months table
does carry the columns (the schema the rest of the code requires), the
scenario succeeds exactly as claimed: the first month is created with opening
balance = closing balance = 0 and the second month with opening balance
-1200. -/
theorem C1_schema_bug :
    ((postAddMonth initDB c1Body1).1.1 = 500 ∧ (postAddMonth initDB c1Body1).2 = initDB) ∧
    ((postAddBill initDB c1Body2).1.1 = 500 ∧ (postAddBill initDB c1Body2).2 = initDB) ∧
    ((postUpdateBalance initDB c1Body3).1.1 = 500 ∧
      (postUpdateBalance initDB c1Body3).2 = initDB) ∧
    ((postAddMonth initDB c1Body4).1.1 = 500 ∧ (postAddMonth initDB c1Body4).2 = initDB) ∧
    ((postAddMonth goodDB c1Body1).1.1 = 201 ∧
      c1s1.months = [{ id := 1, ym := ymJan, opening_balance := 0, closing_balance := 0 }] ∧
      (postAddBill c1s1 c1Body2).1.1 = 201 ∧
      (postUpdateBalance c1s2 c1Body3).1.1 = 200 ∧
      (postAddMonth c1s3 c1Body4).1.1 = 201 ∧
      c1s4.months.find? (fun r => r.ym == ymFeb) =
        some { id := 2, ym := ymFeb, opening_balance := -1200, closing_balance := -1200 }) :=
  ⟨⟨rfl, rfl⟩, ⟨rfl, rfl⟩, ⟨rfl, rfl⟩, ⟨rfl, rfl⟩, rfl, rfl, rfl, rfl, rfl, rfl⟩

/-- C3 counterexample: the carry-forward does NOT hold regardless of zero
padding.  January 2024 stored under the unpadded key 2024-1 with closing
balance 7 exists when its chronological successor 2024-02 is created, yet the
new month opens at 0, because the code looks the predecessor up under the
zero-padded string 2024-01 only. -/
theorem C3_counterexample :
    parseYM ymJanShort = some (2024, 1) ∧
    parseYM ymFeb = some (2024, 2) ∧
    c3db2.months =
      [{ id := 1, ym := ymJanShort, opening_balance := 0, closing_balance := 7 }] ∧
    c3db3.months.find? (fun r => r.ym == ymFeb) =
      some { id := 2, ym := ymFeb, opening_balance := 0, closing_balance := 0 } ∧
    ¬((0 : Rat) = 7) :=
  ⟨rfl, rfl, rfl, rfl, by decide⟩

/-- C7 counterexample: an add_bill request whose amount is a JSON array (a
non-numeric amount) is answered 500, not 400: float raises TypeError, which
the local handler (catching only ValueError) does not intercept.  No row is
created. -/
theorem C7_counterexample :
    (postAddBill goodDB c7body).1.1 = 500 ∧
    ¬((postAddBill goodDB c7body).1.1 = 400) ∧
    (postAddBill goodDB c7body).2 = goodDB :=
  ⟨rfl, by decide, rfl⟩

/-- C8 counterexample: update_balance for a year-month key with no month row
answers 200 with status ok and silently changes nothing; it never reports
not_found. -/
theorem C8_counterexample :
    goodDB.months.find? (fun r => r.ym == ymJan) = none ∧
    (postUpdateBalance goodDB c8body).1.1 = 200 ∧
    ¬((postUpdateBalance goodDB c8body).1.1 = 404) ∧
    (postUpdateBalance goodDB c8body).2 = goodDB :=
  ⟨rfl, rfl, by decide, rfl⟩

/-- C9: for every bill or money-in identifier, existing or not, the delete
endpoints answer 200 carrying the identifier as deleted_id; the store change
is exactly the removal of the rows with that id, so when no such row exists
the store is unchanged. -/
theorem C9_delete_silent_success (db : DB) (i : Int) :
    deleteBillOp db i =
      ((200, JVal.obj [(statusKey, JVal.str okStr), (deletedIdKey, JVal.num (i : Rat))]),
        { db with bills := db.bills.filter (fun b => !((b.id : Int) == i)) }) ∧
    ((∀ b ∈ db.bills, ¬((b.id : Int) = i)) → (deleteBillOp db i).2 = db) ∧
    deleteMoneyInOp db i =
      ((200, JVal.obj [(statusKey, JVal.str okStr), (deletedIdKey, JVal.num (i : Rat))]),
        { db with money_ins := db.money_ins.filter (fun mi => !((mi.id : Int) == i)) }) ∧
    ((∀ mi ∈ db.money_ins, ¬((mi.id : Int) = i)) → (deleteMoneyInOp db i).2 = db) := by
  refine ⟨rfl, ?_, rfl, ?_⟩
  · intro h
    show { db with bills := db.bills.filter (fun b => !((b.id : Int) == i)) } = db
    have hf : db.bills.filter (fun b => !((b.id : Int) == i)) = db.bills := by
      apply List.filter_eq_self.mpr
      intro b hb
      simpa using h b hb
    rw [hf]
  · intro h
    show { db with money_ins := db.money_ins.filter (fun mi => !((mi.id : Int) == i)) } = db
    have hf : db.money_ins.filter (fun mi => !((mi.id : Int) == i)) = db.money_ins := by
      apply List.filter_eq_self.mpr
      intro mi hmi
      simpa using h mi hmi
    rw [hf]

/-- C9 witness: a concrete store with one bill (id 1); deleting the absent
bill id 42 answers 200 and leaves the store unchanged. -/
theorem C9_witness :
    (∀ b ∈ c9db.bills, ¬((b.id : Int) = 42)) ∧
    (deleteBillOp c9db 42).1.1 = 200 ∧ (deleteBillOp c9db 42).2 = c9db :=
  ⟨by decide, rfl, (C9_delete_silent_success c9db 42).2.1 (by decide)⟩

/-- C10: a POST to any of the seven known routes whose body is unreadable or
not valid JSON behaves exactly as with the empty JSON object body: the
response is a 400 (missing required field), the store is unchanged, and no
500 arises from the malformed body alone. -/
theorem C10_malformed_body (db : DB) (r : String) (hr : r ∈ knownPostRoutes) :
    postDispatch r none db = postDispatch r (some []) db ∧
    (postDispatch r none db).1.1 = 400 ∧
    (postDispatch r none db).2 = db := by
  fin_cases hr <;> exact ⟨rfl, rfl, rfl⟩

/-- C10 witness: the add_month route with an unparseable body answers 400 and
keeps the store as it was. -/
theorem C10_witness :
    addMonthRoute ∈ knownPostRoutes ∧
    (postDispatch addMonthRoute none goodDB).1.1 = 400 ∧
    (postDispatch addMonthRoute none goodDB).2 = goodDB :=
  ⟨by decide, (C10_malformed_body goodDB addMonthRoute (by decide)).2.1,
    (C10_malformed_body goodDB addMonthRoute (by decide)).2.2⟩

/-- C2: for every well-formed year-month key with no month row yet, on a store
whose months table carries the balance columns, ensure_month computes the
preceding key (December of the prior year when the month is 1, else same year
and month minus 1 zero-padded), reads that months closing balance (zero when
absent), appends a single new month row whose opening and closing balance
both equal that value, and returns the fresh row identifier. -/
theorem C2_ensure_month_creates (db : DB) (ym : String) (y m : Nat)
    (hcols : db.monthsHasBalanceCols = true)
    (habs : db.months.find? (fun r => r.ym == ym) = none)
    (hp : parseYM ym = some (y, m)) :
    ensure_month db ym = .ok (db.nextMonthId,
      { db with
        months := db.months ++ [newMonthRow db.nextMonthId ym (specPrevClosing db y m)],
        nextMonthId := db.nextMonthId + 1 }) := by
  have hpy : prevYmOf y m = specPrevYm y m := by
    unfold prevYmOf specPrevYm
    by_cases h1 : m = 1 <;> simp [h1]
  simp only [ensure_month, hcols, if_true, habs, hp, hpy]
  cases hf : db.months.find? (fun r => r.ym == specPrevYm y m) with
  | none => simp [specPrevClosing, hf, newMonthRow]
  | some r =>
    simp only [specPrevClosing, hf, orZeroEq, newMonthRow]

/-- C2 witness: creating 2025-01 in the empty (correct-schema) store: the
preceding key 2024-12 is absent, so the new row opens and closes at 0 and
gets id 1. -/
theorem C2_witness :
    goodDB.monthsHasBalanceCols = true ∧
    goodDB.months.find? (fun r => r.ym == ym2501) = none ∧
    parseYM ym2501 = some (2025, 1) ∧
    ensure_month goodDB ym2501 = .ok (1,
      { monthsHasBalanceCols := true,
        months := [{ id := 1, ym := ym2501, opening_balance := 0, closing_balance := 0 }],
        bills := [], money_ins := [], nextMonthId := 2, nextBillId := 1, nextMiId := 1 }) :=
  ⟨rfl, rfl, rfl, C2_ensure_month_creates goodDB ym2501 2025 1 rfl rfl rfl⟩

/-- C3 (amended): the carry-forward invariant holds for keys stored in the
exact predecessor format the code derives (year as printed by Python, month
zero-padded to two digits, year-1 and 12 for January): when a month row under
prevYmOf y m exists at the moment a not-yet-existing key parsing as (y, m) is
created, the new month opens (and closes) at that rows closing balance as it
stands at creation time. -/
theorem C3_carry_forward_amended (db : DB) (ym2 : String) (y m : Nat) (m1 : Month)
    (hcols : db.monthsHasBalanceCols = true)
    (habs : db.months.find? (fun r => r.ym == ym2) = none)
    (hp : parseYM ym2 = some (y, m))
    (hfind : db.months.find? (fun r => r.ym == prevYmOf y m) = some m1) :
    ensure_month db ym2 = .ok (db.nextMonthId,
      { db with
        months := db.months ++ [newMonthRow db.nextMonthId ym2 m1.closing_balance],
        nextMonthId := db.nextMonthId + 1 }) := by
  simp only [ensure_month, hcols, if_true, habs, hp, hfind, orZeroEq, newMonthRow]

/-- C3 witness: with January stored canonically as 2024-01 and closing
balance 7, creating 2024-02 carries the 7 into the new opening balance. -/
theorem C3_witness :
    c3wDB.months.find? (fun r => r.ym == prevYmOf 2024 2) = some c3wM1 ∧
    ensure_month c3wDB ymFeb = .ok (2,
      { monthsHasBalanceCols := true,
        months := [c3wM1,
          { id := 2, ym := ymFeb, opening_balance := 7, closing_balance := 7 }],
        bills := [], money_ins := [], nextMonthId := 3, nextBillId := 1, nextMiId := 1 }) :=
  ⟨rfl, C3_carry_forward_amended c3wDB ymFeb 2024 2 c3wM1 rfl rfl rfl rfl⟩

/-- C8 (amended): update_balance with a nonempty key and a numeric value, on
a store with the balance columns, always answers 200 with status ok; the only
store change is overwriting the closing balance of the rows matching the key,
so an unknown key is a silent no-op, never a not_found. -/
theorem C8_update_balance_amended (db : DB) (s : String) (v : Rat)
    (hcols : db.monthsHasBalanceCols = true)
    (hs : truthy (JVal.str s) = true) :
    postUpdateBalance db [(ymKey, JVal.str s), (closingKey, JVal.num v)] =
      ((200, JVal.obj [(statusKey, JVal.str okStr), (ymKey, JVal.str s),
        (closingKey, JVal.num v)]),
       { db with months := db.months.map (fun m =>
         if m.ym == s then { m with closing_balance := v } else m) }) := by
  have h1 : bget [(ymKey, JVal.str s), (closingKey, JVal.num v)] ymKey = JVal.str s := rfl
  have h2 : bget [(ymKey, JVal.str s), (closingKey, JVal.num v)] closingKey =
      JVal.num v := rfl
  simp only [postUpdateBalance, h1, h2, hs, hcols, isNull, pyFloat, bindable,
    Bool.not_true, Bool.false_or, if_true, ymMatches]
  rfl

/-- C8 witness: overwriting the closing balance of an existing month 2024-01
answers 200 and changes exactly that months closing balance. -/
theorem C8_witness :
    c3wDB.monthsHasBalanceCols = true ∧
    postUpdateBalance c3wDB [(ymKey, JVal.str ymJan), (closingKey, JVal.num 9)] =
      ((200, JVal.obj [(statusKey, JVal.str okStr), (ymKey, JVal.str ymJan),
        (closingKey, JVal.num 9)]),
       { monthsHasBalanceCols := true,
         months := [{ id := 1, ym := ymJan, opening_balance := 0, closing_balance := 9 }],
         bills := [], money_ins := [], nextMonthId := 2, nextBillId := 1, nextMiId := 1 }) :=
  ⟨rfl, C8_update_balance_amended c3wDB ymJan 9 rfl rfl⟩

/-- C7 (amended): for add_bill and add_money_in, a missing (None) amount or a
non-numeric string amount is answered 400 with no row created and the store
unchanged; an amount of JSON array or object type, however, raises a
TypeError that escapes the local ValueError handler, so the response is 500
when the other required fields pass the presence check (400 otherwise), still
creating no row and leaving the store unchanged. -/
theorem C7_amount_errors_amended (db : DB) (data : Body) :
    (bget data amountKey = JVal.null →
      (postAddBill db data).1.1 = 400 ∧ (postAddBill db data).2 = db ∧
      (postAddMoneyIn db data).1.1 = 400 ∧ (postAddMoneyIn db data).2 = db) ∧
    (∀ s, bget data amountKey = JVal.str s → pyFloatOfStr s = none →
      (postAddBill db data).1.1 = 400 ∧ (postAddBill db data).2 = db ∧
      (postAddMoneyIn db data).1.1 = 400 ∧ (postAddMoneyIn db data).2 = db) ∧
    (∀ l, bget data amountKey = JVal.arr l →
      ((postAddBill db data).1.1 = 400 ∨ (postAddBill db data).1.1 = 500) ∧
      (postAddBill db data).2 = db ∧
      ((postAddMoneyIn db data).1.1 = 400 ∨ (postAddMoneyIn db data).1.1 = 500) ∧
      (postAddMoneyIn db data).2 = db) ∧
    (∀ fs, bget data amountKey = JVal.obj fs →
      ((postAddBill db data).1.1 = 400 ∨ (postAddBill db data).1.1 = 500) ∧
      (postAddBill db data).2 = db ∧
      ((postAddMoneyIn db data).1.1 = 400 ∨ (postAddMoneyIn db data).1.1 = 500) ∧
      (postAddMoneyIn db data).2 = db) := by
  refine ⟨?_, ?_, ?_, ?_⟩
  · intro h
    have hb : postAddBill db data = (errResp 400 msgBillFields, db) := by
      simp [postAddBill, h, isNull]
    have hm : postAddMoneyIn db data = (errResp 400 msgMiFields, db) := by
      simp [postAddMoneyIn, h, isNull]
    rw [hb, hm]
    exact ⟨rfl, rfl, rfl, rfl⟩
  · intro s h hpf
    have hb : postAddBill db data = (errResp 400 msgBillFields, db) ∨
        postAddBill db data = (errResp 400 msgAmountNum, db) := by
      cases hg : truthy (bget data ymKey) && truthy (bget data nameKey) with
      | false => exact Or.inl (by simp [postAddBill, h, hg, isNull])
      | true => exact Or.inr (by simp [postAddBill, h, hg, isNull, pyFloat, hpf])
    have hm : postAddMoneyIn db data = (errResp 400 msgMiFields, db) ∨
        postAddMoneyIn db data = (errResp 400 msgAmountNum, db) := by
      cases hg : truthy (bget data ymKey) && truthy (bget data sourceKey) with
      | false => exact Or.inl (by simp [postAddMoneyIn, h, hg, isNull])
      | true => exact Or.inr (by simp [postAddMoneyIn, h, hg, isNull, pyFloat, hpf])
    rcases hb with hb | hb <;> rcases hm with hm | hm <;> rw [hb, hm] <;>
      exact ⟨rfl, rfl, rfl, rfl⟩
  · intro l h
    have hb : postAddBill db data = (errResp 400 msgBillFields, db) ∨
        postAddBill db data = (exc500 .typeError, db) := by
      cases hg : truthy (bget data ymKey) && truthy (bget data nameKey) with
      | false => exact Or.inl (by simp [postAddBill, h, hg, isNull])
      | true => exact Or.inr (by simp [postAddBill, h, hg, isNull, pyFloat])
    have hm : postAddMoneyIn db data = (errResp 400 msgMiFields, db) ∨
        postAddMoneyIn db data = (exc500 .typeError, db) := by
      cases hg : truthy (bget data ymKey) && truthy (bget data sourceKey) with
      | false => exact Or.inl (by simp [postAddMoneyIn, h, hg, isNull])
      | true => exact Or.inr (by simp [postAddMoneyIn, h, hg, isNull, pyFloat])
    rcases hb with hb | hb <;> rcases hm with hm | hm <;> rw [hb, hm] <;>
      refine ⟨?_, rfl, ?_, rfl⟩ <;> first | exact Or.inl rfl | exact Or.inr rfl
  · intro fs h
    have hb : postAddBill db data = (errResp 400 msgBillFields, db) ∨
        postAddBill db data = (exc500 .typeError, db) := by
      cases hg : truthy (bget data ymKey) && truthy (bget data nameKey) with
      | false => exact Or.inl (by simp [postAddBill, h, hg, isNull])
      | true => exact Or.inr (by simp [postAddBill, h, hg, isNull, pyFloat])
    have hm : postAddMoneyIn db data = (errResp 400 msgMiFields, db) ∨
        postAddMoneyIn db data = (exc500 .typeError, db) := by
      cases hg : truthy (bget data ymKey) && truthy (bget data sourceKey) with
      | false => exact Or.inl (by simp [postAddMoneyIn, h, hg, isNull])
      | true => exact Or.inr (by simp [postAddMoneyIn, h, hg, isNull, pyFloat])
    rcases hb with hb | hb <;> rcases hm with hm | hm <;> rw [hb, hm] <;>
      refine ⟨?_, rfl, ?_, rfl⟩ <;> first | exact Or.inl rfl | exact Or.inr rfl

/-- C7 witness: add_bill with the non-numeric string amount abc on the empty
correct-schema store answers 400 and creates nothing. -/
theorem C7_witness :
    bget c7wBody amountKey = JVal.str abcStr ∧ pyFloatOfStr abcStr = none ∧
    (postAddBill goodDB c7wBody).1.1 = 400 ∧ (postAddBill goodDB c7wBody).2 = goodDB :=
  ⟨rfl, rfl, ((C7_amount_errors_amended goodDB c7wBody).2.1 abcStr rfl rfl).1,
    ((C7_amount_errors_amended goodDB c7wBody).2.1 abcStr rfl rfl).2.1⟩

/-- C4: when an add_month request (body carrying a string key) succeeds with
a 201, repeating the identical request returns the very same response (in
particular the same month identifier) and leaves the store exactly as it
was: no month row is added or removed and no balance is altered. -/
theorem C4_add_month_idempotent (db db1 : DB) (data : Body) (s : String) (r : Resp)
    (hys : bget data ymKey = JVal.str s)
    (h : postAddMonth db data = (r, db1))
    (h201 : r.1 = 201) :
    postAddMonth db1 data = (r, db1) := by
  simp only [postAddMonth, hys] at h ⊢
  by_cases ht : truthy (JVal.str s) = false
  · rw [if_pos ht] at h
    injection h with h1 h2
    rw [← h1] at h201
    simp [errResp] at h201
  · rw [if_neg ht] at h
    rw [if_neg ht]
    cases hres : ensure_month db s with
    | error e =>
      rw [hres] at h
      injection h with h1 h2
      rw [← h1] at h201
      simp [exc500, errResp] at h201
    | ok p =>
      obtain ⟨i, dbe⟩ := p
      rw [hres] at h
      simp only [] at h
      cases hfind : dbe.months.find? (fun q => q.ym == s) with
      | none =>
        simp only [hfind] at h
        injection h with h1 h2
        rw [← h1] at h201
        simp [exc500, errResp] at h201
      | some row =>
        simp only [hfind] at h
        injection h with h1 h2
        subst h2
        subst h1
        have hcols : dbe.monthsHasBalanceCols = true :=
          ensure_month_ok_cols db s (i, dbe) hres
        simp only [ensure_month_found dbe s row hcols hfind, hfind]

/-- C4 witness: add_month 2024-01 on the empty correct-schema store succeeds
with 201; repeating it returns the same response and the same store. -/
theorem C4_witness :
    postAddMonth goodDB c1Body1 = (c4resp, c4db1) ∧ c4resp.1 = 201 ∧
    postAddMonth c4db1 c1Body1 = (c4resp, c4db1) :=
  ⟨rfl, rfl, C4_add_month_idempotent goodDB c4db1 c1Body1 ymJan c4resp rfl rfl rfl⟩

/-- C5: delete_month with a nonempty string key, on a store whose month keys
are unique: an unknown key is answered 404 with the store untouched; an
existing key is answered 200 and removes exactly the month row and the bills
and money-ins owned by it (rows of other months survive the filters), after
which the bill and money-in list queries for that key return the empty
list. -/
theorem C5_delete_month_cascade (db : DB) (s : String)
    (hs : truthy (JVal.str s) = true)
    (huniq : ∀ m1 ∈ db.months, ∀ m2 ∈ db.months, m1.ym = m2.ym → m1 = m2) :
    (db.months.find? (fun q => q.ym == s) = none →
      postDeleteMonth db [(ymKey, JVal.str s)] =
        ((404, JVal.obj [(statusKey, JVal.str notFoundStr), (ymKey, JVal.str s)]), db)) ∧
    (∀ row, db.months.find? (fun q => q.ym == s) = some row →
      postDeleteMonth db [(ymKey, JVal.str s)] =
        ((200, JVal.obj [(statusKey, JVal.str okStr), (deletedKey, JVal.str s)]),
          cascadeDelete db row.id) ∧
      (getBills (cascadeDelete db row.id) (some s)).1 = (200, JVal.arr []) ∧
      (getMoneyIns (cascadeDelete db row.id) (some s)).1 = (200, JVal.arr [])) := by
  have hbg : bget [(ymKey, JVal.str s)] ymKey = JVal.str s := rfl
  have hlen : (s.length == 0) = false := by
    have := hs
    simp only [truthy, bne] at this
    simpa using this
  constructor
  · intro hf
    simp [postDeleteMonth, hbg, hs, bindable, hf]
  · intro row hf
    have hresp : postDeleteMonth db [(ymKey, JVal.str s)] =
        ((200, JVal.obj [(statusKey, JVal.str okStr), (deletedKey, JVal.str s)]),
          cascadeDelete db row.id) := by
      simp [postDeleteMonth, hbg, hs, bindable, hf]
    have hrow : row ∈ db.months := List.mem_of_find?_eq_some hf
    have hrowym : row.ym = s := by
      have h0 := List.find?_some hf
      simpa using h0
    have hnoym : ∀ m ∈ (cascadeDelete db row.id).months, ¬(m.ym = s) := by
      intro m hm hmy
      rcases List.mem_filter.mp hm with ⟨hmm, hmid⟩
      have hmr : m = row := huniq m hmm row hrow (hmy.trans hrowym.symm)
      rw [hmr] at hmid
      simp at hmid
    have hbills : (cascadeDelete db row.id).bills.filter
        (fun b => (cascadeDelete db row.id).months.any
          (fun m => m.id == b.month_id && m.ym == s)) = [] := by
      rw [List.filter_eq_nil_iff]
      intro b hb hany
      rcases List.any_eq_true.mp hany with ⟨m, hm, hpm⟩
      simp only [Bool.and_eq_true] at hpm
      exact hnoym m hm (by rw [← beq_iff_eq]; exact hpm.2)
    have hmis : (cascadeDelete db row.id).money_ins.filter
        (fun mi => (cascadeDelete db row.id).months.any
          (fun m => m.id == mi.month_id && m.ym == s)) = [] := by
      rw [List.filter_eq_nil_iff]
      intro mi hmi hany
      rcases List.any_eq_true.mp hany with ⟨m, hm, hpm⟩
      simp only [Bool.and_eq_true] at hpm
      exact hnoym m hm (by rw [← beq_iff_eq]; exact hpm.2)
    refine ⟨hresp, ?_, ?_⟩
    · simp [getBills, hlen, hbills, sortByLe]
    · simp [getMoneyIns, hlen, hmis, sortByLe]

/-- C5 witness: deleting month 2024-01 from a store holding two months, a
bill and a money-in for each side, cascades away exactly its rows and the
subsequent bill listing for 2024-01 is empty. -/
theorem C5_witness :
    c5db.months.find? (fun q => q.ym == ymJan) = some c5m1 ∧
    postDeleteMonth c5db [(ymKey, JVal.str ymJan)] =
      ((200, JVal.obj [(statusKey, JVal.str okStr), (deletedKey, JVal.str ymJan)]),
        cascadeDelete c5db 1) ∧
    (getBills (cascadeDelete c5db 1) (some ymJan)).1 = (200, JVal.arr []) :=
  ⟨rfl, ((C5_delete_month_cascade c5db ymJan rfl (by decide)).2 c5m1 rfl).1,
    ((C5_delete_month_cascade c5db ymJan rfl (by decide)).2 c5m1 rfl).2.1⟩

/-- Every API operation changes the months table in one of four shapes only:
unchanged, one appended row carrying the fresh id, a deletion by id, or an
in-place rewrite of closing balances that keeps ids and opening balances. -/
theorem monthsShape (op : Op) (db : DB) :
    (applyOp op db).2.months = db.months ∨
    (∃ mnew : Month, mnew.id = db.nextMonthId ∧
      (applyOp op db).2.months = db.months ++ [mnew]) ∨
    (∃ i : Nat, (applyOp op db).2.months = db.months.filter (fun m => !(m.id == i))) ∨
    (∃ v : Rat, ∃ p : Month → Bool, (applyOp op db).2.months =
      db.months.map (fun m => if p m then { m with closing_balance := v } else m)) := by
  cases op with
  | listMonths => exact Or.inl rfl
  | listBills ym =>
    cases ym with
    | none => exact Or.inl rfl
    | some y =>
      simp only [applyOp, getBills]
      split
      · exact Or.inl rfl
      · exact Or.inl rfl
  | listMoneyIns ym =>
    cases ym with
    | none => exact Or.inl rfl
    | some y =>
      simp only [applyOp, getMoneyIns]
      split
      · exact Or.inl rfl
      · exact Or.inl rfl
  | addMonth b =>
    simp only [applyOp, postAddMonth]
    split
    · exact Or.inl rfl
    · split
      · rename_i s hs
        cases hres : ensure_month db s with
        | error e => simp only [hres]; exact Or.inl (by trivial)
        | ok p =>
          obtain ⟨i, db1⟩ := p
          simp only [hres]
          rcases ensure_month_months db s (i, db1) hres with heq | ⟨mnew, hid, hm, _, _⟩
          · have hdb : db1 = db := heq
            subst hdb
            split
            · exact Or.inl rfl
            · exact Or.inl rfl
          · split
            · exact Or.inr (Or.inl ⟨mnew, hid, hm⟩)
            · exact Or.inr (Or.inl ⟨mnew, hid, hm⟩)
      · exact Or.inl rfl
  | deleteMonth b =>
    simp only [applyOp, postDeleteMonth]
    split
    · exact Or.inl rfl
    · split
      · exact Or.inl rfl
      · split
        · exact Or.inl rfl
        · exact Or.inr (Or.inr (Or.inl ⟨_, rfl⟩))
  | addBill b =>
    simp only [applyOp, postAddBill]
    split
    · exact Or.inl rfl
    · split
      · exact Or.inl rfl
      · exact Or.inl rfl
      · split
        · rename_i s hs
          cases hres : ensure_month db s with
          | error e => simp only [hres]; exact Or.inl (by trivial)
          | ok p =>
            obtain ⟨i, db1⟩ := p
            simp only [hres]
            rcases ensure_month_months db s (i, db1) hres with heq | ⟨mnew, hid, hm, _, _⟩
            · have hdb : db1 = db := heq
              subst hdb
              split
              · exact Or.inl rfl
              · exact Or.inl rfl
            · split
              · exact Or.inr (Or.inl ⟨mnew, hid, hm⟩)
              · exact Or.inr (Or.inl ⟨mnew, hid, hm⟩)
        · exact Or.inl rfl
  | updateBill b =>
    simp only [applyOp, postUpdateBill]
    split
    · exact Or.inl rfl
    · split
      · exact Or.inl rfl
      · exact Or.inl rfl
      · split
        · exact Or.inl rfl
        · exact Or.inl rfl
  | addMoneyIn b =>
    simp only [applyOp, postAddMoneyIn]
    split
    · exact Or.inl rfl
    · split
      · exact Or.inl rfl
      · exact Or.inl rfl
      · split
        · rename_i s hs
          cases hres : ensure_month db s with
          | error e => simp only [hres]; exact Or.inl (by trivial)
          | ok p =>
            obtain ⟨i, db1⟩ := p
            simp only [hres]
            rcases ensure_month_months db s (i, db1) hres with heq | ⟨mnew, hid, hm, _, _⟩
            · have hdb : db1 = db := heq
              subst hdb
              split
              · exact Or.inl rfl
              · exact Or.inl rfl
            · split
              · exact Or.inr (Or.inl ⟨mnew, hid, hm⟩)
              · exact Or.inr (Or.inl ⟨mnew, hid, hm⟩)
        · exact Or.inl rfl
  | updateMoneyIn b =>
    simp only [applyOp, postUpdateMoneyIn]
    split
    · exact Or.inl rfl
    · split
      · exact Or.inl rfl
      · exact Or.inl rfl
      · split
        · exact Or.inl rfl
        · exact Or.inl rfl
  | updateBalance b =>
    simp only [applyOp, postUpdateBalance]
    split
    · exact Or.inl rfl
    · split
      · exact Or.inl rfl
      · exact Or.inl rfl
      · split
        · split
          · exact Or.inr (Or.inr (Or.inr ⟨_, fun m => ymMatches (bget b ymKey) m.ym, rfl⟩))
          · exact Or.inl rfl
        · exact Or.inl rfl
  | deleteBill i => exact Or.inl rfl
  | deleteMoneyIn i => exact Or.inl rfl

/-- C6: on a store whose month ids are unique and below the AUTOINCREMENT
counter (the sqlite invariants), no API operation alters the opening balance
of a month that already exists: every month row surviving an operation that
shares its id with a pre-existing row keeps that rows opening balance. -/
theorem C6_opening_immutable (op : Op) (db : DB)
    (huniq : ∀ m1 ∈ db.months, ∀ m2 ∈ db.months, m1.id = m2.id →
      m1.opening_balance = m2.opening_balance)
    (hfresh : ∀ m ∈ db.months, m.id < db.nextMonthId) :
    ∀ m' ∈ (applyOp op db).2.months, ∀ m ∈ db.months, m.id = m'.id →
      m'.opening_balance = m.opening_balance := by
  intro m' hm' m hm hid
  rcases monthsShape op db with h | ⟨mnew, hnid, h⟩ | ⟨i, h⟩ | ⟨v, p, h⟩
  · rw [h] at hm'
    exact huniq m' hm' m hm hid.symm
  · rw [h] at hm'
    rcases List.mem_append.mp hm' with h1 | h1
    · exact huniq m' h1 m hm hid.symm
    · have hmn : m' = mnew := by simpa using h1
      subst hmn
      rw [hnid] at hid
      exact absurd hid (Nat.ne_of_lt (hfresh m hm))
  · rw [h] at hm'
    exact huniq m' (List.mem_of_mem_filter hm') m hm hid.symm
  · rw [h] at hm'
    rcases List.mem_map.mp hm' with ⟨m0, hm0, heq⟩
    have hop : m'.opening_balance = m0.opening_balance := by
      rw [← heq]
      by_cases hp : p m0 = true <;> simp [hp]
    have hidm : m'.id = m0.id := by
      rw [← heq]
      by_cases hp : p m0 = true <;> simp [hp]
    rw [hop]
    exact huniq m0 hm0 m hm (hid.trans hidm).symm

/-- C6 witness: updating the closing balance of 2024-01 in a one-month store
satisfies the id invariants and keeps every opening balance. -/
theorem C6_witness :
    (∀ m1 ∈ c3wDB.months, ∀ m2 ∈ c3wDB.months, m1.id = m2.id →
      m1.opening_balance = m2.opening_balance) ∧
    (∀ m ∈ c3wDB.months, m.id < c3wDB.nextMonthId) ∧
    (∀ m' ∈ (applyOp c6op c3wDB).2.months, ∀ m ∈ c3wDB.months, m.id = m'.id →
      m'.opening_balance = m.opening_balance) :=
  ⟨by decide, by decide, C6_opening_immutable c6op c3wDB (by decide) (by decide)⟩

end Bud
